import Mathlib

/-!
Shallow embedding of the dbman connection/tunnel registry
(src/unnamed/part_007, src/unnamed/part_004, src/unnamed/part_008,
src/meta.go, src/sql_types.go) and proofs about it.

External, effectful collaborators (the SSH transport, the Postgres driver,
the environment, the interactive prompter) are modelled by an `Oracle` whose
fields record the outcome each external call would produce; the registry code
itself is translated statement by statement.  Every fallible operation
returns its result together with the list of observable external events it
performed, so that claims about "dials", "prompts" and "queries issued" are
statable.
-/

namespace Dbman

/-- Go `map[string]T` lookup (`m[k]` with the `ok` flag). -/
def mapLookup {α : Type} (m : List (String × α)) (k : String) : Option α :=
  match m with
  | [] => none
  | (k2, v) :: rest => if k2 = k then some v else mapLookup rest k

/-- Remove every entry with key `k` (helper for `mapInsert`). -/
def mapRemove {α : Type} (m : List (String × α)) (k : String) : List (String × α) :=
  match m with
  | [] => []
  | p :: rest => if p.1 = k then mapRemove rest k else p :: mapRemove rest k

/-- Go `map[string]T` assignment `m[k] = v` (replaces any previous entry). -/
def mapInsert {α : Type} (m : List (String × α)) (k : String) (v : α) :
    List (String × α) :=
  (k, v) :: mapRemove m k

/-- Split a character list on a separator character; the recursion underlying
    `stringsSplit`. -/
def splitChar (sep : Char) : List Char → List String
  | [] => [String.mk []]
  | c :: rest =>
    let r := splitChar sep rest
    if c = sep then String.mk [] :: r
    else
      match r with
      | [] => [String.mk [c]]
      | s :: ss => String.mk (c :: s.data) :: ss

/-- Go `strings.Split(s, sep)` for a one-character separator: splitting the
    empty string yields one empty segment, and `n` separators yield `n + 1`
    segments. -/
def stringsSplit (s : String) (sep : Char) : List String :=
  splitChar sep s.data

/-- Go `strings.ToUpper` restricted to ASCII (database type names are
    ASCII). -/
def stringToUpper (s : String) : String :=
  String.mk (s.data.map Char.toUpper)

/-- The UTF-8 encoding of one code point. -/
def charUtf8 (n : Nat) : List Nat :=
  if n < 128 then [n]
  else if n < 2048 then [192 + n / 64, 128 + n % 64]
  else if n < 65536 then [224 + n / 4096, 128 + n / 64 % 64, 128 + n % 64]
  else [240 + n / 262144, 128 + n / 4096 % 64, 128 + n / 64 % 64, 128 + n % 64]

/-- `Connection` from src/unnamed/part_008: one configured database connection. -/
structure Connection where
  host : String := ""
  port : Int := 0
  database : String := ""
  username : String := ""
  password : String := ""
  driver : String := ""
  driverOpts : List (String × String) := []
  tunnel : String := ""
  connectTimeoutSec : Int := 0
  maxOpenConns : Int := 0
deriving DecidableEq, Repr

/-- `SSHTunnel` from src/unnamed/part_008: one configured bastion tunnel. -/
structure SSHTunnel where
  host : String := ""
  port : Int := 0
  user : String := ""
  authMethod : String := ""
  password : String := ""
  privateKeyFile : String := ""
  privateKeyPassphrase : String := ""
  connectTimeoutSec : Int := 0
  disableVerifyKnownHost : Bool := false
  hostPublicKeyFile : String := ""
deriving DecidableEq, Repr

/-- `Config` from src/unnamed/part_008. -/
structure Config where
  connections : List (String × Connection) := []
  tunnels : List (String × SSHTunnel) := []
deriving DecidableEq, Repr

/-- One byte-stream connection currently forwarded through a tunnel
    (an element of `Tunnel.connections` in src/unnamed/part_004); closing it
    may fail with an error. -/
structure ForwardedConn where
  id : Nat := 0
  closeErr : Option String := none
deriving DecidableEq, Repr

/-- A live `Tunnel` (src/unnamed/part_004): the OS-assigned local listener
    endpoint, the tracked forwarded connections, and the error the listener
    close would report. -/
structure Tunnel where
  localHost : String := "127.0.0.1"
  localPort : Int := 0
  connections : List ForwardedConn := []
  listenerCloseErr : Option String := none
deriving DecidableEq, Repr

/-- A representative subset of `sql.DBStats` (database/sql); the registry
    only ever forwards it or returns its zero value. -/
structure DBStats where
  maxOpenConnections : Int := 0
  openConnections : Int := 0
  inUse : Int := 0
  idle : Int := 0
deriving DecidableEq, Repr

/-- A value as delivered by the database driver for one result cell
    (`driver.Value`): nil, int64, float64 (kept abstract as its bit pattern),
    bool, `[]byte`, string, or a `time.Time` instant (kept abstract). -/
inductive DriverValue where
  | null
  | int64 (i : Int)
  | float64 (bits : Nat)
  | bool (b : Bool)
  | bytes (bs : List Nat)
  | str (s : String)
  | time (t : Int)
deriving DecidableEq, Repr

/-- One entry of `rows.ColumnTypes()`: result column name, the
    database-reported type name, and an opaque identity for the driver's
    native scan type (`col.ScanType()`). -/
structure ColumnType where
  name : String := ""
  databaseTypeName : String := ""
  scanTypeId : Nat := 0
deriving DecidableEq, Repr

/-- A materialized `*sql.Rows`: the column metadata, the row data, and the
    value `rows.Err()` reports after the last row. -/
structure Rows where
  columns : List ColumnType := []
  data : List (List DriverValue) := []
  rowsErr : Option String := none
deriving DecidableEq, Repr

/-- Outcome of issuing a query on a live handle: either the query call itself
    fails, or it yields a (lazily drained) row set. -/
inductive QueryResponse where
  | failure (e : String)
  | rows (r : Rows)
deriving DecidableEq, Repr

/-- A live `*sql.DB` handle as the registry observes it: its behaviour on
    ping, on the next issued query, on `Stats()` and on `Close()` is recorded
    as data (the handle is a proxy for a remote server). -/
structure DB where
  id : Nat := 0
  pingErr : Option String := none
  stats : DBStats := {}
  queryRes : QueryResponse := .failure "no server"
  closeErr : Option String := none
deriving DecidableEq, Repr

/-- The error taxonomy of the registry; each constructor stands for one Go
    error message (`fmt.Errorf`/`errors.New` site), with `inner` carrying the
    wrapped underlying error text. -/
inductive DBError where
  | notConfigured (name : String)
  | tunnelFailed (inner : String)
  | openFailed (inner : String)
  | unsupportedDriver
  | pingFailed (inner : String)
  | noActiveConnection
  | invalidTableName (name : String)
  | scanUnexpectedType
  | outOfRange
  | yesOrNoInvalid
  | scanCountMismatch
  | uuidBadLength (n : Nat)
  | uuidBadHex
  | other (msg : String)
deriving DecidableEq, Repr

/-- Which introspection or user query was issued (the dialect SQL text itself
    is out of the model's scope). -/
inductive MetaQuery where
  | userScript (s : String)
  | listTablesQ
  | listTablesInSchemaQ (schema : String)
  | listSchemasQ
  | describeQ (schema table : String)
deriving DecidableEq, Repr

/-- Observable external events performed by the registry. -/
inductive Event where
  | tunnelDial (tunnelName : String) (ok : Bool)
  | promptDBPassword
  | dbOpen (connName : String)
  | ping (connName : String)
  | query (q : MetaQuery)
  | closeQuerier (connName : String) (e : Option String)
  | closeTunnel (tunnelName : String) (e : Option String)
  | closeForwardedConn (id : Nat) (e : Option String)
  | closeListener (e : Option String)
deriving DecidableEq, Repr

/-- The `DBMan` registry state (src/unnamed/part_007 lines 18-24). -/
structure DBMan where
  current : Option DB := none
  cfg : Config
  activeQueriers : List (String × DB) := []
  activeTunnels : List (String × Tunnel) := []
  currentName : String := ""
deriving DecidableEq, Repr

/-- `New` (src/unnamed/part_007 lines 26-34). -/
def DBMan.new (cfg : Config) : DBMan :=
  { cfg := cfg, current := none, currentName := "",
    activeQueriers := [], activeTunnels := [] }

/-- Result of a step that can succeed, return an error, or hit a Go runtime
    panic (an unchecked `answers[0]` index on an empty slice). -/
inductive StepResult (α : Type) where
  | ok (a : α)
  | err (e : DBError)
  | panicked
deriving DecidableEq, Repr

/-- Outcomes of the external calls one `SwitchConnection` invocation can
    perform, consumed in program order. -/
structure Oracle where
  newTunnel : Except String Tunnel := .error "no bastion"
  pgpassword : String := ""
  promptAnswers : Except DBError (List String) := .ok ["secret"]
  openResult : Except String DB := .error "no driver"
deriving Repr

/-- Tunnel resolution step of `SwitchConnection` (src/unnamed/part_007 lines
    77-95): reuse the cached tunnel or establish and register a new one, and
    point the transient copy of the spec at the tunnel's local endpoint.
    `tunnelCfg := d.cfg.Tunnels[conn.Tunnel]` (the zero value when absent) is
    consumed by `NewTunnel`, whose outcome `o.newTunnel` supplies. -/
def resolveTunnel (d : DBMan) (conn : Connection) (o : Oracle) :
    Except DBError Connection × DBMan × List Event :=
  if conn.tunnel = "" then (.ok conn, d, [])
  else
    match mapLookup d.activeTunnels conn.tunnel with
    | some tunnel =>
      (.ok { conn with host := tunnel.localHost, port := tunnel.localPort }, d, [])
    | none =>
      match o.newTunnel with
      | .error e =>
        (.error (.tunnelFailed e), d, [.tunnelDial conn.tunnel false])
      | .ok tunnel =>
        (.ok { conn with host := tunnel.localHost, port := tunnel.localPort },
         { d with activeTunnels := mapInsert d.activeTunnels conn.tunnel tunnel },
         [.tunnelDial conn.tunnel true])

/-- Secret resolution step of `SwitchConnection` (src/unnamed/part_007 lines
    97-108): explicit config value, else the PGPASSWORD environment variable,
    else an interactive prompt whose first answer is read without checking
    that any answer exists (`answers[0]`). -/
def resolvePassword (conn : Connection) (o : Oracle) :
    StepResult Connection × List Event :=
  if conn.password = "" then
    if ¬(o.pgpassword = "") then
      (.ok { conn with password := o.pgpassword }, [])
    else
      match o.promptAnswers with
      | .error e => (.err e, [.promptDBPassword])
      | .ok [] => (.panicked, [.promptDBPassword])
      | .ok (a :: _) => (.ok { conn with password := a }, [.promptDBPassword])
  else (.ok conn, [])

/-- `SwitchConnection` (src/unnamed/part_007 lines 64-138).  Returns the
    outcome, the registry state after the call (Go mutates the receiver in
    place, so state changes made before a failure persist), and the external
    events performed.  `conn` is the value copy produced by indexing the
    `Connections` map; the host/port/password rewrites below touch only that
    copy.  `SetMaxOpenConns`/`SetConnMaxIdleTime` configure the handle and
    have no registry-observable effect; the ping deadline context only bounds
    the ping in real time. -/
def DBMan.switchConnection (d : DBMan) (connName : String) (o : Oracle) :
    StepResult Unit × DBMan × List Event :=
  match mapLookup d.cfg.connections connName with
  | none => (.err (.notConfigured connName), d, [])
  | some conn =>
  match mapLookup d.activeQueriers connName with
  | some querier =>
    (.ok (), { d with current := some querier, currentName := connName }, [])
  | none =>
  match resolveTunnel d conn o with
  | (.error e, d1, evts1) => (.err e, d1, evts1)
  | (.ok conn1, d1, evts1) =>
  match resolvePassword conn1 o with
  | (.err e, evts2) => (.err e, d1, evts1 ++ evts2)
  | (.panicked, evts2) => (.panicked, d1, evts1 ++ evts2)
  | (.ok conn2, evts2) =>
  if conn2.driver = "postgres" then
    match o.openResult with
    | .error e =>
      (.err (.openFailed e), d1, evts1 ++ evts2 ++ [.dbOpen connName])
    | .ok db =>
      match db.pingErr with
      | some e =>
        (.err (.pingFailed e), d1,
         evts1 ++ evts2 ++ [.dbOpen connName, .ping connName])
      | none =>
        (.ok (),
         { d1 with activeQueriers := mapInsert d1.activeQueriers connName db,
                   current := some db, currentName := connName },
         evts1 ++ evts2 ++ [.dbOpen connName, .ping connName])
  else
    (.err .unsupportedDriver, d1, evts1 ++ evts2)

/-- Run a sequence of `SwitchConnection` calls, collecting all events. -/
def runSwitches (d : DBMan) : List (String × Oracle) → DBMan × List Event
  | [] => (d, [])
  | (n, o) :: rest =>
    let r := DBMan.switchConnection d n o
    let r2 := runSwitches r.2.1 rest
    (r2.1, r.2.2 ++ r2.2)

/-- `Tunnel.Close` (src/unnamed/part_004 lines 185-192): close every tracked
    forwarded connection, then the local listener, returning the listener
    close's error. -/
def Tunnel.close (t : Tunnel) : Option String × List Event :=
  (t.listenerCloseErr,
   (t.connections.map fun c => Event.closeForwardedConn c.id c.closeErr) ++
   [Event.closeListener t.listenerCloseErr])

/-- `DBMan.Close` (src/unnamed/part_007 lines 36-46): close every cached
    querier and every active tunnel, discarding each individual close result,
    and return nil. -/
def DBMan.close (d : DBMan) : Option DBError × List Event :=
  (none,
   (d.activeQueriers.map fun p => Event.closeQuerier p.1 p.2.closeErr) ++
   (d.activeTunnels.map fun p => Event.closeTunnel p.1 (Tunnel.close p.2).1))

/-- `DBMan.Stats` (src/unnamed/part_007 lines 165-170): the zero value when
    no connection is current. -/
def DBMan.stats (d : DBMan) : DBStats :=
  match d.current with
  | none => {}
  | some q => q.stats

/-! UUID decoding and display (src/sql_types.go lines 126-217), over byte
    lists (`[]byte`; a byte is a `Nat` below 256). -/

/-- `encoding/hex` digit decoding: ASCII 0-9, a-f, A-F. -/
def fromHexChar (c : Nat) : Option Nat :=
  if 48 ≤ c ∧ c ≤ 57 then some (c - 48)
  else if 97 ≤ c ∧ c ≤ 102 then some (c - 97 + 10)
  else if 65 ≤ c ∧ c ≤ 70 then some (c - 65 + 10)
  else none

/-- `hex.Decode`: consume digit pairs; any non-digit (or odd length) is an
    error, reported as `none`. -/
def hexDecode : List Nat → Option (List Nat)
  | [] => some []
  | a :: b :: rest =>
    match fromHexChar a, fromHexChar b with
    | some hi, some lo => (hexDecode rest).map fun ds => (hi * 16 + lo) :: ds
    | _, _ => none
  | [_] => none

/-- Lower-case ASCII code of the hex digit `d` (the `encoding/hex` alphabet
    `0123456789abcdef`). -/
def toHexLower (d : Nat) : Nat :=
  if d < 10 then 48 + d else 87 + d

/-- `hex.Encode` with the lower-case alphabet. -/
def hexEncode : List Nat → List Nat
  | [] => []
  | b :: rest => toHexLower (b / 16) :: toHexLower (b % 16) :: hexEncode rest

/-- ASCII upper-casing of one byte (used to state that decoding accepts
    either letter case). -/
def asciiToUpper (c : Nat) : Nat :=
  if 97 ≤ c ∧ c ≤ 122 then c - 32 else c

/-- The UTF-8 bytes of a string, as `Nat`s. -/
def strBytes (s : String) : List Nat :=
  s.data.foldr (fun c acc => charUtf8 c.toNat ++ acc) []

/-- `uuidParse` (src/sql_types.go lines 131-171): dispatch on the input
    length; 16 raw bytes are copied verbatim, 32 hex digits are decoded, a
    36-byte hyphenated form is decoded in five groups (the four separator
    bytes at offsets 8, 13, 18 and 23 are skipped, not inspected); any other
    length is an error.  Returns the 16 decoded bytes. -/
def uuidParse (inp : List Nat) : Option (List Nat) :=
  if inp.length = 16 then some inp
  else if inp.length = 32 then hexDecode inp
  else if inp.length = 36 then
    match hexDecode (inp.take 8), hexDecode ((inp.drop 9).take 4),
          hexDecode ((inp.drop 14).take 4), hexDecode ((inp.drop 19).take 4),
          hexDecode ((inp.drop 24).take 12) with
    | some a, some b, some c, some d, some e => some (a ++ b ++ c ++ d ++ e)
    | _, _, _, _, _ => none
  else none

/-- `uuidVal.String` (src/sql_types.go lines 198-217): `NULL` for an invalid
    value, else the lower-case hex encoding of the 16 bytes in 8-4-4-4-12
    groups joined by the hyphen byte 45. -/
def uuidValString (valid : Bool) (uuid : List Nat) : List Nat :=
  if valid = false then strBytes "NULL"
  else
    hexEncode (uuid.take 4) ++ [45] ++ hexEncode ((uuid.drop 4).take 2) ++ [45] ++
    hexEncode ((uuid.drop 6).take 2) ++ [45] ++ hexEncode ((uuid.drop 8).take 2) ++ [45] ++
    hexEncode (uuid.drop 10)

/-! Result scanning (src/unnamed/part_007 lines 200-263 and
    src/sql_types.go).  Driver-value conversion performed by `database/sql`
    for the standard null wrappers is modelled on the canonical values the
    Postgres driver emits (nil, int64, float64, bool, string, time.Time);
    byte-slice-to-text and numeric-text parsing side roads of
    `convertAssign` are not traversed by the claims and are elided. -/

/-- The scanner selected for one column by the type-name dispatch
    (src/unnamed/part_007 lines 209-242). -/
inductive Scanner where
  | nullStringS
  | nullBoolS
  | nullInt64S
  | nullInt32S
  | nullInt16S
  | nullFloat64S
  | nullFloat32S
  | nullTimeS
  | uuidS
  | arrayS
  | fallbackS (scanTypeId : Nat)
deriving DecidableEq, Repr

/-- The value a scanner's target holds after a scan, i.e. the row cell the
    registry stores (`reflect.Indirect(reflect.ValueOf(val)).Interface()`). -/
inductive TypedValue where
  | nullString (valid : Bool) (s : String)
  | nullBool (valid : Bool) (b : Bool)
  | nullInt64 (valid : Bool) (i : Int)
  | nullInt32 (valid : Bool) (i : Int)
  | nullInt16 (valid : Bool) (i : Int)
  | nullFloat64 (valid : Bool) (bits : Nat)
  | nullFloat32 (valid : Bool) (bits : Nat)
  | nullTime (valid : Bool) (t : Int)
  | uuid (valid : Bool) (bytes : List Nat)
  | array (elems : List DriverValue)
  | raw (v : DriverValue)
deriving DecidableEq, Repr

/-- Type-name dispatch for scanner selection (src/unnamed/part_007 lines
    209-242), on the upper-cased database type name. -/
def selectScanner (col : ColumnType) : Scanner :=
  match stringToUpper col.databaseTypeName with
  | "CHARACTER" | "CHAR" | "CHARACTER VARYING" | "VARCHAR" | "NVARCHAR" | "TEXT" =>
    .nullStringS
  | "BOOL" | "BOOLEAN" => .nullBoolS
  | "BIGINT" | "INT8" | "BIGSERIAL" | "SERIAL8" | "INTERVAL" => .nullInt64S
  | "INTEGER" | "INT" | "INT4" | "SERIAL" | "SERIAL4" => .nullInt32S
  | "SMALLINT" | "INT2" | "SMALLSERIAL" | "SERIAL2" => .nullInt16S
  | "DOUBLE" | "FLOAT8" | "NUMERIC" | "DECIMAL" => .nullFloat64S
  | "REAL" | "FLOAT4" => .nullFloat32S
  | "TIMESTAMP" | "TIMESTAMPTZ" | "TIME" | "TIMETZ" | "DATE" => .nullTimeS
  | "UUID" => .uuidS
  | "ARRAY" => .arrayS
  | _ => .fallbackS col.scanTypeId

/-- Go `int16(i)` conversion of an int64: two's-complement truncation
    (`nullInt16.Scan`, src/sql_types.go lines 67-82, truncates silently). -/
def int16ofInt64 (i : Int) : Int :=
  (i + 2 ^ 15) % 2 ^ 16 - 2 ^ 15

/-- Scan one driver value into the scanner selected for its column.
    `nullInt16.Scan`/`nullFloat32.Scan`/`uuidVal.Scan` are the repo's own
    (src/sql_types.go); the others follow `database/sql`'s null wrappers
    (nil makes the target invalid, a mismatched type is a scan error, an
    int64 that overflows int32 is an error).  float64-to-float32 rounding is
    not modelled (the bit pattern is carried through).  The `ARRAY` target
    `new([]interface{})` captures the element list; the fallback target is
    built by reflection from the driver's scan type and captures the value
    verbatim. -/
def scanCell (s : Scanner) (v : DriverValue) : Except DBError TypedValue :=
  match s with
  | .nullStringS =>
    match v with
    | .null => .ok (.nullString false "")
    | .str s => .ok (.nullString true s)
    | _ => .error .scanUnexpectedType
  | .nullBoolS =>
    match v with
    | .null => .ok (.nullBool false false)
    | .bool b => .ok (.nullBool true b)
    | _ => .error .scanUnexpectedType
  | .nullInt64S =>
    match v with
    | .null => .ok (.nullInt64 false 0)
    | .int64 i => .ok (.nullInt64 true i)
    | _ => .error .scanUnexpectedType
  | .nullInt32S =>
    match v with
    | .null => .ok (.nullInt32 false 0)
    | .int64 i =>
      if -(2 ^ 31) ≤ i ∧ i < 2 ^ 31 then .ok (.nullInt32 true i)
      else .error .outOfRange
    | _ => .error .scanUnexpectedType
  | .nullInt16S =>
    match v with
    | .null => .ok (.nullInt16 false 0)
    | .int64 i => .ok (.nullInt16 true (int16ofInt64 i))
    | _ => .error .scanUnexpectedType
  | .nullFloat64S =>
    match v with
    | .null => .ok (.nullFloat64 false 0)
    | .float64 bits => .ok (.nullFloat64 true bits)
    | _ => .error .scanUnexpectedType
  | .nullFloat32S =>
    match v with
    | .null => .ok (.nullFloat32 false 0)
    | .float64 bits => .ok (.nullFloat32 true bits)
    | _ => .error .scanUnexpectedType
  | .nullTimeS =>
    match v with
    | .null => .ok (.nullTime false 0)
    | .time t => .ok (.nullTime true t)
    | _ => .error .scanUnexpectedType
  | .uuidS =>
    match v with
    | .null => .ok (.uuid false (List.replicate 16 0))
    | .str s =>
      match uuidParse (strBytes s) with
      | some u => .ok (.uuid true u)
      | none => .error (.uuidBadLength (strBytes s).length)
    | .bytes bs =>
      match uuidParse bs with
      | some u => .ok (.uuid true u)
      | none => .error (.uuidBadLength bs.length)
    | _ => .error .scanUnexpectedType
  | .arrayS =>
    match v with
    | .null => .ok (.array [])
    | w => .ok (.array [w])
  | .fallbackS _ => .ok (.raw v)

/-- `rows.Scan(scanners...)` for one row: arity mismatch or any cell scan
    failure is an error. -/
def scanRow : List Scanner → List DriverValue → Except DBError (List TypedValue)
  | [], [] => .ok []
  | s :: ss, v :: vs =>
    match scanCell s v with
    | .error e => .error e
    | .ok tv =>
      match scanRow ss vs with
      | .error e => .error e
      | .ok tvs => .ok (tv :: tvs)
  | _, _ => .error .scanCountMismatch

/-- The `rows.Next()` drain loop of `Query`: scan every row, aborting on the
    first scan error. -/
def scanRows (ss : List Scanner) :
    List (List DriverValue) → Except DBError (List (List TypedValue))
  | [] => .ok []
  | row :: rest =>
    match scanRow ss row with
    | .error e => .error e
    | .ok tvs =>
      match scanRows ss rest with
      | .error e => .error e
      | .ok out => .ok (tvs :: out)

/-- `QueryResult` (src/unnamed/part_007 lines 172-175). -/
structure QueryResult where
  columns : List String := []
  rows : List (List TypedValue) := []
deriving DecidableEq, Repr

/-- `DBMan.Query` (src/unnamed/part_007 lines 180-263).  Returns the Go
    `(result, error)` pair (both can be set: the final return hands back the
    drained result alongside `rows.Err()`), plus the issued query.  A
    statement that reports zero columns short-circuits to `(nil, nil)`
    before any scanning. -/
def DBMan.query (d : DBMan) (script : String) :
    (Option QueryResult × Option DBError) × List Event :=
  match d.current with
  | none => ((none, some .noActiveConnection), [])
  | some q =>
    match q.queryRes with
    | .failure e => ((none, some (.other e)), [.query (.userScript script)])
    | .rows rows =>
      if rows.columns.length = 0 then
        ((none, none), [.query (.userScript script)])
      else
        match scanRows (rows.columns.map selectScanner) rows.data with
        | .error e => ((none, some e), [.query (.userScript script)])
        | .ok outRows =>
          ((some { columns := rows.columns.map ColumnType.name, rows := outRows },
            rows.rowsErr.map DBError.other),
           [.query (.userScript script)])

/-! The dialect-specific introspection layer `dbMeta` (src/meta.go).  The
    handle's answer to the single query each method issues is `DB.queryRes`;
    text cells are scanned out of `string` driver values. -/

/-- `ColumnSchema` (src/meta.go lines 14-18); `Type` is spelled `colType`. -/
structure ColumnSchema where
  name : String := ""
  colType : String := ""
  attrs : List String := []
deriving DecidableEq, Repr

/-- `TableSchema` (src/meta.go lines 20-23). -/
structure TableSchema where
  name : String := ""
  columns : List ColumnSchema := []
deriving DecidableEq, Repr

/-- `parseYesOrNo` (src/meta.go lines 213-222). -/
def parseYesOrNo (s : String) : Except DBError Bool :=
  match s with
  | "YES" | "yes" => .ok true
  | "NO" | "no" => .ok false
  | _ => .error .yesOrNoInvalid

/-- Scan a cell into a plain `string` target. -/
def scanString (v : DriverValue) : Except DBError String :=
  match v with
  | .str s => .ok s
  | _ => .error .scanUnexpectedType

/-- Scan a cell into a `sql.NullString` target: (valid, value). -/
def scanNullString (v : DriverValue) : Except DBError (Bool × String) :=
  match v with
  | .null => .ok (false, "")
  | .str s => .ok (true, s)
  | _ => .error .scanUnexpectedType

/-- Scan a cell into a `yesOrNo` target (src/meta.go lines 232-247). -/
def scanYesOrNo (v : DriverValue) : Except DBError Bool :=
  match v with
  | .str s => parseYesOrNo s
  | _ => .error .yesOrNoInvalid

/-- Scan the whole single-`string`-column row set of the listing queries. -/
def scanStringRows : List (List DriverValue) → Except DBError (List String)
  | [] => .ok []
  | row :: rest =>
    match row with
    | [v] =>
      match scanString v with
      | .error e => .error e
      | .ok s =>
        match scanStringRows rest with
        | .error e => .error e
        | .ok out => .ok (s :: out)
    | _ => .error .scanCountMismatch

/-- `dbMeta.ListTables` (src/meta.go lines 67-87): one listing query; the
    scan loop can fail, and the final return discards `rows.Err()`. -/
def dbMetaListTables (m : DB) : (Option (List String) × Option DBError) × List Event :=
  match m.queryRes with
  | .failure e => ((none, some (.other e)), [.query .listTablesQ])
  | .rows rows =>
    match scanStringRows rows.data with
    | .error e => ((none, some e), [.query .listTablesQ])
    | .ok names => ((some names, none), [.query .listTablesQ])

/-- `dbMeta.ListTablesInSchema` (src/meta.go lines 89-108): as above but the
    final return also hands back `rows.Err()`. -/
def dbMetaListTablesInSchema (m : DB) (schema : String) :
    (Option (List String) × Option DBError) × List Event :=
  match m.queryRes with
  | .failure e => ((none, some (.other e)), [.query (.listTablesInSchemaQ schema)])
  | .rows rows =>
    match scanStringRows rows.data with
    | .error e => ((none, some e), [.query (.listTablesInSchemaQ schema)])
    | .ok names =>
      ((some names, rows.rowsErr.map DBError.other),
       [.query (.listTablesInSchemaQ schema)])

/-- `dbMeta.ListSchemas` (src/meta.go lines 126-145): system schemas are
    excluded inside the query itself; `rows.Err()` is discarded. -/
def dbMetaListSchemas (m : DB) : (Option (List String) × Option DBError) × List Event :=
  match m.queryRes with
  | .failure e => ((none, some (.other e)), [.query .listSchemasQ])
  | .rows rows =>
    match scanStringRows rows.data with
    | .error e => ((none, some e), [.query .listSchemasQ])
    | .ok names => ((some names, none), [.query .listSchemasQ])

/-- Decode one row of the describe query (src/meta.go lines 178-206):
    `column_name, column_default, is_nullable, data_type, udt_schema,
    udt_name`; a reported `USER-DEFINED` type is replaced by
    `udt_schema.udt_name`; attributes are the optional `DEFAULT expr` tag
    followed by the nullability tag. -/
def describeRow (r : List DriverValue) : Except DBError ColumnSchema :=
  match r with
  | [n, dflt, nl, ty, us, un] =>
    match scanString n, scanNullString dflt, scanYesOrNo nl, scanString ty,
          scanNullString us, scanNullString un with
    | .ok name, .ok defaultVal, .ok nullable, .ok ty0, .ok userTypeSchema, .ok userType =>
      let ty1 := if ty0 = "USER-DEFINED" then userTypeSchema.2 ++ "." ++ userType.2 else ty0
      let attrs0 := if defaultVal.1 then ["DEFAULT " ++ defaultVal.2] else []
      .ok { name := name, colType := ty1,
            attrs := attrs0 ++ [if nullable then "NULL" else "NOT NULL"] }
    | .error e, _, _, _, _, _ => .error e
    | _, .error e, _, _, _, _ => .error e
    | _, _, .error e, _, _, _ => .error e
    | _, _, _, .error e, _, _ => .error e
    | _, _, _, _, .error e, _ => .error e
    | _, _, _, _, _, .error e => .error e
  | _ => .error .scanCountMismatch

/-- The describe scan loop. -/
def describeRows : List (List DriverValue) → Except DBError (List ColumnSchema)
  | [] => .ok []
  | row :: rest =>
    match describeRow row with
    | .error e => .error e
    | .ok col =>
      match describeRows rest with
      | .error e => .error e
      | .ok out => .ok (col :: out)

/-- Issue and drain the describe query for a validated (schema, table) pair
    (src/meta.go lines 166-208); the final return pairs the accumulated
    schema with `rows.Err()`. -/
def dbMetaDescribeRun (m : DB) (schema table : String) :
    (Option TableSchema × Option DBError) × List Event :=
  match m.queryRes with
  | .failure e => ((none, some (.other e)), [.query (.describeQ schema table)])
  | .rows rows =>
    match describeRows rows.data with
    | .error e => ((none, some e), [.query (.describeQ schema table)])
    | .ok cols =>
      ((some { name := table, columns := cols }, rows.rowsErr.map DBError.other),
       [.query (.describeQ schema table)])

/-- `dbMeta.DescribeTable` (src/meta.go lines 147-208): split the qualified
    name on the dot (Go `strings.Split`, which yields one empty segment for
    the empty string); two segments are `schema.table`, one segment defaults
    the schema to `public`, anything else is a validation error raised
    before any query. -/
def dbMetaDescribeTable (m : DB) (tablename : String) :
    (Option TableSchema × Option DBError) × List Event :=
  match stringsSplit tablename '.' with
  | [schema, table] => dbMetaDescribeRun m schema table
  | [table] => dbMetaDescribeRun m "public" table
  | _ => ((none, some (.invalidTableName tablename)), [])

/-- `DBMan.ListTables` (src/unnamed/part_007 lines 140-149). -/
def DBMan.listTables (d : DBMan) (schema : String) :
    (Option (List String) × Option DBError) × List Event :=
  match d.current with
  | none => ((none, some .noActiveConnection), [])
  | some q =>
    if ¬(schema = "") then dbMetaListTablesInSchema q schema
    else dbMetaListTables q

/-- `DBMan.ListSchemas` (src/unnamed/part_007 lines 151-156). -/
def DBMan.listSchemas (d : DBMan) :
    (Option (List String) × Option DBError) × List Event :=
  match d.current with
  | none => ((none, some .noActiveConnection), [])
  | some q => dbMetaListSchemas q

/-- `DBMan.DescribeTable` (src/unnamed/part_007 lines 158-163). -/
def DBMan.describeTable (d : DBMan) (name : String) :
    (Option TableSchema × Option DBError) × List Event :=
  match d.current with
  | none => ((none, some .noActiveConnection), [])
  | some q => dbMetaDescribeTable q name

/-- An `ssh.Signer` produced by a successful private-key decryption (opaque). -/
structure Signer where
  id : Nat := 0
deriving DecidableEq, Repr

/-- The encrypted-private-key passphrase retry loop of `NewTunnel`
    (src/unnamed/part_004 lines 90-103): up to `promptNumRetries` (= 3)
    attempts; a prompter error is logged and the loop continues; a returned
    answer list is read at index 0 without checking it is non-empty; a parse
    failure keeps the error and retries; exhausting the retries is a
    decryption failure.  `attempts i` is the prompter's outcome on attempt
    `i`; `parsePass` is `ssh.ParsePrivateKeyWithPassphrase` on the key
    material. -/
def passphraseLoop (attempts : Nat → Except String (List String))
    (parsePass : String → Except String Signer) : Nat → Nat → StepResult Signer
  | _, 0 => .err (.other "could not decrypt private key")
  | i, fuel + 1 =>
    match attempts i with
    | .error _ => passphraseLoop attempts parsePass (i + 1) fuel
    | .ok [] => .panicked
    | .ok (a :: _) =>
      match parsePass a with
      | .ok s => .ok s
      | .error _ => passphraseLoop attempts parsePass (i + 1) fuel

/-- `promptNumRetries` (src/unnamed/part_004 line 22). -/
def promptNumRetries : Nat := 3

/-! Concrete fixtures used by witnesses and counterexamples. -/

/-- A configured connection that goes through tunnel `t`. -/
def wConnTunnel : Connection :=
  { driver := "postgres", host := "db.internal", port := 5432,
    database := "orders", username := "app", password := "pw", tunnel := "t" }

/-- A configured direct connection with no stored password. -/
def wConnDirect : Connection :=
  { driver := "postgres", host := "localhost", port := 5432,
    database := "orders", username := "app" }

/-- A two-connection, one-tunnel configuration. -/
def wCfg : Config :=
  { connections := [("c", wConnTunnel), ("direct", wConnDirect)],
    tunnels := [("t", { host := "bastion", port := 22, user := "app" })] }

/-- The live tunnel the oracle hands back. -/
def wTunnel : Tunnel := { localHost := "127.0.0.1", localPort := 50001 }

/-- A healthy handle. -/
def wDBok : DB := { id := 1 }

/-- A handle whose ping fails. -/
def wDBbad : DB := { id := 2, pingErr := some "timeout" }

/-- A handle that answers the next query with an empty row set (no columns,
    no rows). -/
def wDBempty : DB := { id := 3, queryRes := .rows {} }

/-- A handle that answers the next query with two columns and no rows. -/
def wDBtwoCols : DB :=
  { id := 4,
    queryRes := .rows { columns := [{ name := "id", databaseTypeName := "uuid" },
                                    { name := "amount", databaseTypeName := "int4" }] } }

/-- Oracle: every external step succeeds. -/
def wOracleOk : Oracle :=
  { newTunnel := .ok wTunnel, promptAnswers := .ok ["secret"], openResult := .ok wDBok }

/-- Oracle: everything succeeds until the ping, which fails. -/
def wOracleBad : Oracle :=
  { newTunnel := .ok wTunnel, promptAnswers := .ok ["secret"], openResult := .ok wDBbad }

/-- Oracle: PGPASSWORD unset and the prompter answers with an empty list. -/
def wOracleEmptyPrompt : Oracle :=
  { newTunnel := .ok wTunnel, pgpassword := "", promptAnswers := .ok [],
    openResult := .ok wDBok }

/-- A registry state with one cached handle and one active tunnel whose
    closes all fail. -/
def wDirtyState : DBMan :=
  { cfg := wCfg, current := some { wDBok with closeErr := some "reset" },
    currentName := "c",
    activeQueriers := [("c", { wDBok with closeErr := some "reset" })],
    activeTunnels := [("t", { wTunnel with
      connections := [{ id := 7, closeErr := some "broken pipe" }, { id := 8 }],
      listenerCloseErr := some "already closed" })] }

/-- A sample 16-byte UUID value. -/
def wUUID : List Nat :=
  [18, 52, 86, 120, 154, 188, 222, 240, 1, 35, 69, 103, 137, 171, 205, 239]

/-! Lemmas about the map operations. -/

theorem mapLookup_remove_ne {α : Type} (m : List (String × α)) (k k2 : String)
    (h : ¬(k2 = k)) :
    mapLookup (mapRemove m k) k2 = mapLookup m k2 := by
  have hne : ¬(k = k2) := fun hc => h hc.symm
  induction m with
  | nil => rfl
  | cons p rest ih =>
    by_cases hp : p.1 = k
    · have hp2 : ¬(p.1 = k2) := by rw [hp]; intro hc; exact h hc.symm
      simp [mapRemove, hp, mapLookup, hp2, ih, hne]
    · by_cases hp2 : p.1 = k2
      · simp [mapRemove, hp, mapLookup, hp2, h]
      · simp [mapRemove, hp, mapLookup, hp2, ih]

theorem mapLookup_insert_self {α : Type} (m : List (String × α)) (k : String) (v : α) :
    mapLookup (mapInsert m k v) k = some v := by
  simp [mapInsert, mapLookup]

theorem mapLookup_insert_ne {α : Type} (m : List (String × α)) (k k2 : String) (v : α)
    (h : ¬(k2 = k)) :
    mapLookup (mapInsert m k v) k2 = mapLookup m k2 := by
  have hne : ¬(k = k2) := fun hc => h hc.symm
  simp [mapInsert, mapLookup, hne, mapLookup_remove_ne m k k2 h]

/-! Frame and event-shape lemmas for the stages of `SwitchConnection`. -/

theorem resolveTunnel_frame (d : DBMan) (conn : Connection) (o : Oracle) :
    ((resolveTunnel d conn o).2.1).cfg = d.cfg ∧
    ((resolveTunnel d conn o).2.1).activeQueriers = d.activeQueriers ∧
    ((resolveTunnel d conn o).2.1).current = d.current ∧
    ((resolveTunnel d conn o).2.1).currentName = d.currentName := by
  unfold resolveTunnel
  split
  · exact ⟨rfl, rfl, rfl, rfl⟩
  · split
    · exact ⟨rfl, rfl, rfl, rfl⟩
    · split <;> exact ⟨rfl, rfl, rfl, rfl⟩

theorem resolveTunnel_events (d : DBMan) (conn : Connection) (o : Oracle) :
    (resolveTunnel d conn o).2.2 = [] ∨
    ∃ b : Bool, (resolveTunnel d conn o).2.2 = [.tunnelDial conn.tunnel b] := by
  unfold resolveTunnel
  split
  · exact .inl rfl
  · split
    · exact .inl rfl
    · split
      · exact .inr ⟨false, rfl⟩
      · exact .inr ⟨true, rfl⟩

theorem resolvePassword_events (conn : Connection) (o : Oracle) :
    (resolvePassword conn o).2 = [] ∨
    (resolvePassword conn o).2 = [.promptDBPassword] := by
  unfold resolvePassword
  split
  · split
    · exact .inl rfl
    · split <;> exact .inr rfl
  · exact .inl rfl

theorem resolveTunnel_count_dbOpen (d : DBMan) (conn : Connection) (o : Oracle)
    (n : String) :
    ((resolveTunnel d conn o).2.2).count (.dbOpen n) = 0 ∧
    ((resolveTunnel d conn o).2.2).count (.ping n) = 0 := by
  rcases resolveTunnel_events d conn o with h | ⟨b, h⟩ <;>
    simp [h, List.count_cons, List.count_nil]

theorem resolvePassword_count_dbOpen (conn : Connection) (o : Oracle) (n : String) :
    ((resolvePassword conn o).2).count (.dbOpen n) = 0 ∧
    ((resolvePassword conn o).2).count (.ping n) = 0 := by
  rcases resolvePassword_events conn o with h | h <;>
    simp [h, List.count_cons, List.count_nil]

/-! Characterization lemmas for `SwitchConnection`. -/

theorem switchConnection_cfg_frame (d : DBMan) (name : String) (o : Oracle) :
    ((DBMan.switchConnection d name o).2.1).cfg = d.cfg := by
  unfold DBMan.switchConnection
  split
  · rfl
  next conn hc =>
  split
  · rfl
  next hq =>
  split
  next e d1 ev1 heq =>
    have h := (resolveTunnel_frame d conn o).1
    rw [heq] at h
    exact h
  next conn1 d1 ev1 heq =>
    have hfr : d1.cfg = d.cfg := by
      have h := (resolveTunnel_frame d conn o).1
      rw [heq] at h
      exact h
    split
    next e2 ev2 hP => exact hfr
    next ev2 hP => exact hfr
    next conn2 ev2 hP =>
      split
      · split
        · exact hfr
        next db hO =>
          split <;> exact hfr
      · exact hfr

theorem switchConnection_err_frame (d : DBMan) (name : String) (o : Oracle)
    (e : DBError) (h : (DBMan.switchConnection d name o).1 = .err e) :
    ((DBMan.switchConnection d name o).2.1).activeQueriers = d.activeQueriers ∧
    ((DBMan.switchConnection d name o).2.1).current = d.current ∧
    ((DBMan.switchConnection d name o).2.1).currentName = d.currentName := by
  revert h
  unfold DBMan.switchConnection
  split
  · intro h
    exact ⟨rfl, rfl, rfl⟩
  next conn hc =>
  split
  · intro h
    simp at h
  next hq =>
  split
  next e1 d1 ev1 heq =>
    intro h
    have hfr := resolveTunnel_frame d conn o
    rw [heq] at hfr
    exact ⟨hfr.2.1, hfr.2.2.1, hfr.2.2.2⟩
  next conn1 d1 ev1 heq =>
    have hfr := resolveTunnel_frame d conn o
    rw [heq] at hfr
    have hgoal : d1.activeQueriers = d.activeQueriers ∧ d1.current = d.current ∧
        d1.currentName = d.currentName := ⟨hfr.2.1, hfr.2.2.1, hfr.2.2.2⟩
    split
    next e2 ev2 hP =>
      intro h
      exact hgoal
    next ev2 hP =>
      intro h
      simp at h
    next conn2 ev2 hP =>
      split
      · split
        · intro h
          exact hgoal
        next db hO =>
          split
          · intro h
            exact hgoal
          · intro h
            simp at h
      · intro h
        exact hgoal

theorem switchConnection_cached (d : DBMan) (name : String) (o : Oracle)
    (db : DB) (c : Connection)
    (hconn : mapLookup d.cfg.connections name = some c)
    (hq : mapLookup d.activeQueriers name = some db)
    (hcur : d.current = some db) (hname : d.currentName = name) :
    DBMan.switchConnection d name o = (.ok (), d, []) := by
  obtain ⟨cur, cfg, aq, atl, cn⟩ := d
  unfold DBMan.switchConnection
  simp only at hconn hq hcur hname
  rw [hconn, hq]
  subst hcur
  subst hname
  rfl

theorem switchConnection_ok_uncached (d : DBMan) (name : String) (o : Oracle)
    (h0 : mapLookup d.activeQueriers name = none)
    (hok : (DBMan.switchConnection d name o).1 = .ok ()) :
    ∃ db : DB,
      ((DBMan.switchConnection d name o).2.1).activeQueriers
        = mapInsert d.activeQueriers name db ∧
      ((DBMan.switchConnection d name o).2.1).current = some db ∧
      ((DBMan.switchConnection d name o).2.1).currentName = name ∧
      ((DBMan.switchConnection d name o).2.1).cfg = d.cfg ∧
      ((DBMan.switchConnection d name o).2.2).count (.dbOpen name) = 1 ∧
      ((DBMan.switchConnection d name o).2.2).count (.ping name) = 1 ∧
      (mapLookup d.cfg.connections name).isSome := by
  revert hok
  unfold DBMan.switchConnection
  split
  next hc =>
    intro hok
    simp at hok
  next conn hc =>
  split
  next querier hq =>
    rw [h0] at hq
    simp at hq
  next hq =>
  split
  next e1 d1 ev1 heq =>
    intro hok
    simp at hok
  next conn1 d1 ev1 heq =>
    have hfr := resolveTunnel_frame d conn o
    have hcnt := resolveTunnel_count_dbOpen d conn o name
    rw [heq] at hfr hcnt
    have hfrQ : d1.activeQueriers = d.activeQueriers := hfr.2.1
    have hfrC : d1.cfg = d.cfg := hfr.1
    have hcntA : ev1.count (.dbOpen name) = 0 := hcnt.1
    have hcntB : ev1.count (.ping name) = 0 := hcnt.2
    split
    next e2 ev2 hP =>
      intro hok
      simp at hok
    next ev2 hP =>
      intro hok
      simp at hok
    next conn2 ev2 hP =>
      have hcnt2 := resolvePassword_count_dbOpen conn1 o name
      rw [hP] at hcnt2
      have hcnt2A : ev2.count (.dbOpen name) = 0 := hcnt2.1
      have hcnt2B : ev2.count (.ping name) = 0 := hcnt2.2
      split
      · split
        next e3 hO =>
          intro hok
          simp at hok
        next db hO =>
          split
          next e4 hping =>
            intro hok
            simp at hok
          next hping =>
            intro hok
            refine ⟨db, ?_, rfl, rfl, hfrC, ?_, ?_, ?_⟩
            · show mapInsert d1.activeQueriers name db
                = mapInsert d.activeQueriers name db
              rw [hfrQ]
            · show (ev1 ++ ev2 ++ [Event.dbOpen name, Event.ping name]).count
                  (Event.dbOpen name) = 1
              simp [List.count_append, List.count_cons, List.count_nil,
                    hcntA, hcnt2A]
            · show (ev1 ++ ev2 ++ [Event.dbOpen name, Event.ping name]).count
                  (Event.ping name) = 1
              simp [List.count_append, List.count_cons, List.count_nil,
                    hcntB, hcnt2B]
            · rw [hc]
              rfl
      · intro hok
        simp at hok

theorem resolveTunnel_tunnelCache (d : DBMan) (conn : Connection) (o : Oracle)
    (tn : String) :
    ((resolveTunnel d conn o).2.2).count (.tunnelDial tn true) ≤ 1 ∧
    ((mapLookup d.activeTunnels tn).isSome →
      ((resolveTunnel d conn o).2.2).count (.tunnelDial tn true) = 0 ∧
      (mapLookup ((resolveTunnel d conn o).2.1).activeTunnels tn).isSome) ∧
    (((resolveTunnel d conn o).2.2).count (.tunnelDial tn true) = 1 →
      (mapLookup ((resolveTunnel d conn o).2.1).activeTunnels tn).isSome) := by
  unfold resolveTunnel
  split
  · simp
  split
  · simp
  next hmiss =>
  split
  next e hNT =>
    refine ⟨?_, ?_, ?_⟩
    · simp [List.count_cons, List.count_nil]
    · intro hpre
      constructor
      · simp [List.count_cons, List.count_nil]
      · exact hpre
    · intro hcount
      simp [List.count_cons, List.count_nil] at hcount
  next tunnel hNT =>
    by_cases htn : conn.tunnel = tn
    · subst htn
      refine ⟨?_, ?_, ?_⟩
      · simp [List.count_cons, List.count_nil]
      · intro hpre
        rw [hmiss] at hpre
        simp at hpre
      · intro _
        show (mapLookup (mapInsert d.activeTunnels conn.tunnel tunnel) conn.tunnel).isSome
        rw [mapLookup_insert_self]
        rfl
    · have hne : ¬(tn = conn.tunnel) := fun hc => htn hc.symm
      refine ⟨?_, ?_, ?_⟩
      · simp [List.count_cons, List.count_nil, htn]
      · intro hpre
        constructor
        · simp [List.count_cons, List.count_nil, htn]
        · show (mapLookup (mapInsert d.activeTunnels conn.tunnel tunnel) tn).isSome
          rw [mapLookup_insert_ne d.activeTunnels conn.tunnel tn tunnel hne]
          exact hpre
      · intro hcount
        simp [List.count_cons, List.count_nil, htn] at hcount

theorem switchConnection_tunnelCache_step (d : DBMan) (name : String) (o : Oracle)
    (tn : String) :
    ((DBMan.switchConnection d name o).2.2).count (.tunnelDial tn true) ≤ 1 ∧
    ((mapLookup d.activeTunnels tn).isSome →
      ((DBMan.switchConnection d name o).2.2).count (.tunnelDial tn true) = 0 ∧
      (mapLookup ((DBMan.switchConnection d name o).2.1).activeTunnels tn).isSome) ∧
    (((DBMan.switchConnection d name o).2.2).count (.tunnelDial tn true) = 1 →
      (mapLookup ((DBMan.switchConnection d name o).2.1).activeTunnels tn).isSome) := by
  unfold DBMan.switchConnection
  split
  · simp
  next conn hc =>
  split
  · refine ⟨by simp, fun hpre => ⟨by simp, hpre⟩, fun hcount => by simp at hcount⟩
  next hq =>
  split
  next e1 d1 ev1 heq =>
    have hrt := resolveTunnel_tunnelCache d conn o tn
    rw [heq] at hrt
    exact hrt
  next conn1 d1 ev1 heq =>
    have hrt := resolveTunnel_tunnelCache d conn o tn
    rw [heq] at hrt
    have hrtA : ev1.count (Event.tunnelDial tn true) ≤ 1 := hrt.1
    have hrtB : (mapLookup d.activeTunnels tn).isSome →
        ev1.count (Event.tunnelDial tn true) = 0 ∧
        (mapLookup d1.activeTunnels tn).isSome := hrt.2.1
    have hrtC : ev1.count (Event.tunnelDial tn true) = 1 →
        (mapLookup d1.activeTunnels tn).isSome := hrt.2.2
    have hP2 := resolvePassword_events conn1 o
    split
    next e2 ev2 hP =>
      rw [hP] at hP2
      have hev2 : ev2.count (Event.tunnelDial tn true) = 0 := by
        rcases hP2 with h | h <;>
          · have h2 : ev2 = _ := h
            simp [h2, List.count_cons, List.count_nil]
      refine ⟨?_, ?_, ?_⟩
      · simp [List.count_append, hev2]
        exact hrtA
      · intro hpre
        obtain ⟨hz, hpost⟩ := hrtB hpre
        constructor
        · simp [List.count_append, hev2, hz]
        · exact hpost
      · intro hcount
        simp [List.count_append, hev2] at hcount
        exact hrtC hcount
    next ev2 hP =>
      rw [hP] at hP2
      have hev2 : ev2.count (Event.tunnelDial tn true) = 0 := by
        rcases hP2 with h | h <;>
          · have h2 : ev2 = _ := h
            simp [h2, List.count_cons, List.count_nil]
      refine ⟨?_, ?_, ?_⟩
      · simp [List.count_append, hev2]
        exact hrtA
      · intro hpre
        obtain ⟨hz, hpost⟩ := hrtB hpre
        constructor
        · simp [List.count_append, hev2, hz]
        · exact hpost
      · intro hcount
        simp [List.count_append, hev2] at hcount
        exact hrtC hcount
    next conn2 ev2 hP =>
      rw [hP] at hP2
      have hev2 : ev2.count (Event.tunnelDial tn true) = 0 := by
        rcases hP2 with h | h <;>
          · have h2 : ev2 = _ := h
            simp [h2, List.count_cons, List.count_nil]
      split
      · split
        next e3 hO =>
          refine ⟨?_, ?_, ?_⟩
          · simp [List.count_append, hev2, List.count_cons, List.count_nil]
            exact hrtA
          · intro hpre
            obtain ⟨hz, hpost⟩ := hrtB hpre
            constructor
            · simp [List.count_append, hev2, hz, List.count_cons, List.count_nil]
            · exact hpost
          · intro hcount
            simp [List.count_append, hev2, List.count_cons, List.count_nil] at hcount
            exact hrtC hcount
        next db hO =>
          split
          next e4 hping =>
            refine ⟨?_, ?_, ?_⟩
            · simp [List.count_append, hev2, List.count_cons, List.count_nil]
              exact hrtA
            · intro hpre
              obtain ⟨hz, hpost⟩ := hrtB hpre
              constructor
              · simp [List.count_append, hev2, hz, List.count_cons, List.count_nil]
              · exact hpost
            · intro hcount
              simp [List.count_append, hev2, List.count_cons, List.count_nil] at hcount
              exact hrtC hcount
          next hping =>
            refine ⟨?_, ?_, ?_⟩
            · simp [List.count_append, hev2, List.count_cons, List.count_nil]
              exact hrtA
            · intro hpre
              obtain ⟨hz, hpost⟩ := hrtB hpre
              constructor
              · simp [List.count_append, hev2, hz, List.count_cons, List.count_nil]
              · exact hpost
            · intro hcount
              simp [List.count_append, hev2, List.count_cons, List.count_nil] at hcount
              exact hrtC hcount
      · refine ⟨?_, ?_, ?_⟩
        · simp [List.count_append, hev2]
          exact hrtA
        · intro hpre
          obtain ⟨hz, hpost⟩ := hrtB hpre
          constructor
          · simp [List.count_append, hev2, hz]
          · exact hpost
        · intro hcount
          simp [List.count_append, hev2] at hcount
          exact hrtC hcount

theorem runSwitches_tunnelDial_bound (tn : String) :
    ∀ (calls : List (String × Oracle)) (d : DBMan),
      ((runSwitches d calls).2).count (.tunnelDial tn true)
        ≤ (if (mapLookup d.activeTunnels tn).isSome then 0 else 1) := by
  intro calls
  induction calls with
  | nil =>
    intro d
    simp [runSwitches]
  | cons p rest ih =>
    intro d
    obtain ⟨n, o⟩ := p
    have hstep := switchConnection_tunnelCache_step d n o tn
    have hrest := ih ((DBMan.switchConnection d n o).2.1)
    simp only [runSwitches, List.count_append]
    by_cases hpre : (mapLookup d.activeTunnels tn).isSome
    · obtain ⟨hz, hpost⟩ := hstep.2.1 hpre
      rw [if_pos hpost] at hrest
      rw [if_pos hpre]
      omega
    · rw [if_neg hpre]
      have hle := hstep.1
      have hrest1 : ((runSwitches ((DBMan.switchConnection d n o).2.1) rest).2).count
          (Event.tunnelDial tn true) ≤ 1 := by
        refine le_trans hrest ?_
        split <;> omega
      rcases Nat.eq_or_lt_of_le hle with h1 | h1
      · have hpost := hstep.2.2 h1
        rw [if_pos hpost] at hrest
        omega
      · have h0 : ((DBMan.switchConnection d n o).2.2).count (Event.tunnelDial tn true) = 0 := by
          omega
        omega

/-! Lemmas about the UUID encodings. -/

theorem fromHexChar_toHexLower :
    ∀ d : Nat, d < 16 → fromHexChar (toHexLower d) = some d := by decide

theorem fromHexChar_upper_toHexLower :
    ∀ d : Nat, d < 16 → fromHexChar (asciiToUpper (toHexLower d)) = some d := by decide

theorem hexDecode_hexEncode (u : List Nat) (h : ∀ b ∈ u, b < 256) :
    hexDecode (hexEncode u) = some u := by
  induction u with
  | nil => rfl
  | cons b rest ih =>
    have hb : b < 256 := h b (by simp)
    have hrest : ∀ x ∈ rest, x < 256 := fun x hx => h x (by simp [hx])
    have hdiv : b / 16 < 16 := by omega
    have hmod : b % 16 < 16 := by omega
    have hval : b / 16 * 16 + b % 16 = b := by omega
    simp only [hexEncode, hexDecode, fromHexChar_toHexLower _ hdiv,
               fromHexChar_toHexLower _ hmod, ih hrest, Option.map_some]
    simp [hval]

theorem hexDecode_upper_hexEncode (u : List Nat) (h : ∀ b ∈ u, b < 256) :
    hexDecode ((hexEncode u).map asciiToUpper) = some u := by
  induction u with
  | nil => rfl
  | cons b rest ih =>
    have hb : b < 256 := h b (by simp)
    have hrest : ∀ x ∈ rest, x < 256 := fun x hx => h x (by simp [hx])
    have hdiv : b / 16 < 16 := by omega
    have hmod : b % 16 < 16 := by omega
    have hval : b / 16 * 16 + b % 16 = b := by omega
    simp only [hexEncode, List.map_cons, hexDecode,
               fromHexChar_upper_toHexLower _ hdiv,
               fromHexChar_upper_toHexLower _ hmod, ih hrest, Option.map_some]
    simp [hval]

theorem hexEncode_length (u : List Nat) : (hexEncode u).length = 2 * u.length := by
  induction u with
  | nil => rfl
  | cons b rest ih =>
    simp [hexEncode, ih]
    omega

theorem take_group (E rest : List Nat) (n : Nat) (hE : E.length = n) :
    (E ++ 45 :: rest).take n = E ∧ (E ++ 45 :: rest).drop (n + 1) = rest := by
  constructor
  · rw [← hE]
    exact List.take_left E (45 :: rest)
  · have h1 : (E ++ 45 :: rest).drop n = 45 :: rest := by
      rw [← hE]
      exact List.drop_left E (45 :: rest)
    have h2 : (E ++ 45 :: rest).drop (n + 1)
        = ((E ++ 45 :: rest).drop n).drop 1 := by
      rw [List.drop_drop]
    rw [h2, h1]
    rfl

theorem uuidParse_hyphenated (A B C D E u : List Nat)
    (hA : A.length = 8) (hB : B.length = 4) (hC : C.length = 4) (hD : D.length = 4)
    (hE : E.length = 12)
    (dA : hexDecode A = some (u.take 4))
    (dB : hexDecode B = some ((u.drop 4).take 2))
    (dC : hexDecode C = some ((u.drop 6).take 2))
    (dD : hexDecode D = some ((u.drop 8).take 2))
    (dE : hexDecode E = some (u.drop 10)) :
    uuidParse (A ++ 45 :: (B ++ 45 :: (C ++ 45 :: (D ++ 45 :: E)))) = some u := by
  have g1 := take_group A (B ++ 45 :: (C ++ 45 :: (D ++ 45 :: E))) 8 hA
  have g2 := take_group B (C ++ 45 :: (D ++ 45 :: E)) 4 hB
  have g3 := take_group C (D ++ 45 :: E) 4 hC
  have g4 := take_group D E 4 hD
  set S := A ++ 45 :: (B ++ 45 :: (C ++ 45 :: (D ++ 45 :: E))) with hS
  have hlen : S.length = 36 := by
    simp [hS, hA, hB, hC, hD, hE]
  have d9 : S.drop 9 = B ++ 45 :: (C ++ 45 :: (D ++ 45 :: E)) := g1.2
  have d14 : S.drop 14 = C ++ 45 :: (D ++ 45 :: E) := by
    have : S.drop 14 = (S.drop 9).drop 5 := by
      rw [List.drop_drop]
    rw [this, d9]
    have h5 : (B ++ 45 :: (C ++ 45 :: (D ++ 45 :: E))).drop 5
        = ((B ++ 45 :: (C ++ 45 :: (D ++ 45 :: E))).drop 4).drop 1 := by
      rw [List.drop_drop]
    rw [h5]
    have hdB : (B ++ 45 :: (C ++ 45 :: (D ++ 45 :: E))).drop 4 = 45 :: (C ++ 45 :: (D ++ 45 :: E)) := by
      rw [← hB]
      exact List.drop_left B _
    rw [hdB]
    rfl
  have d19 : S.drop 19 = D ++ 45 :: E := by
    have : S.drop 19 = (S.drop 14).drop 5 := by
      rw [List.drop_drop]
    rw [this, d14]
    exact g3.2
  have d24 : S.drop 24 = E := by
    have : S.drop 24 = (S.drop 19).drop 5 := by
      rw [List.drop_drop]
    rw [this, d19]
    exact g4.2
  have t8 : S.take 8 = A := g1.1
  have t9 : (S.drop 9).take 4 = B := by rw [d9]; exact g2.1
  have t14 : (S.drop 14).take 4 = C := by rw [d14]; exact g3.1
  have t19 : (S.drop 19).take 4 = D := by rw [d19]; exact g4.1
  have t24 : (S.drop 24).take 12 = E := by
    rw [d24, ← hE]
    exact List.take_length E
  have c1 : u.take 4 ++ (u.drop 4).take 2 = u.take 6 := by
    have h := List.take_add u 4 2
    simpa using h.symm
  have c2 : u.take 6 ++ (u.drop 6).take 2 = u.take 8 := by
    have h := List.take_add u 6 2
    simpa using h.symm
  have c3 : u.take 8 ++ (u.drop 8).take 2 = u.take 10 := by
    have h := List.take_add u 8 2
    simpa using h.symm
  have c4 : u.take 10 ++ u.drop 10 = u := List.take_append_drop 10 u
  simp only [uuidParse, hlen]
  norm_num
  rw [t8, t9, t14, t19, t24, dA, dB, dC, dD, dE]
  simp only [List.append_assoc]
  rw [← List.append_assoc (u.take 4), c1, ← List.append_assoc, c2,
      ← List.append_assoc, c3, c4]

theorem uuidValString_group_form (u : List Nat) :
    uuidValString true u
      = hexEncode (u.take 4) ++ 45 :: (hexEncode ((u.drop 4).take 2) ++ 45 ::
        (hexEncode ((u.drop 6).take 2) ++ 45 :: (hexEncode ((u.drop 8).take 2) ++ 45 ::
        hexEncode (u.drop 10)))) := by
  simp [uuidValString, List.append_assoc]

theorem uuidParse_other_length (inp : List Nat) (h16 : ¬(inp.length = 16))
    (h32 : ¬(inp.length = 32)) (h36 : ¬(inp.length = 36)) :
    uuidParse inp = none := by
  simp [uuidParse, h16, h32, h36]

theorem hexEncode_chars (xs : List Nat) (hxs : ∀ b ∈ xs, b < 256) :
    ∀ c ∈ hexEncode xs, (48 ≤ c ∧ c ≤ 57) ∨ (97 ≤ c ∧ c ≤ 102) := by
  induction xs with
  | nil => simp [hexEncode]
  | cons b rest ih =>
    have hb : b < 256 := hxs b (by simp)
    have hrest : ∀ x ∈ rest, x < 256 := fun x hx => hxs x (by simp [hx])
    intro c hcmem
    simp only [hexEncode, List.mem_cons] at hcmem
    have hdig : ∀ d : Nat, d < 16 →
        (48 ≤ toHexLower d ∧ toHexLower d ≤ 57) ∨
        (97 ≤ toHexLower d ∧ toHexLower d ≤ 102) := by
      intro d hd
      unfold toHexLower
      split <;> omega
    rcases hcmem with h | h | h
    · subst h
      exact hdig _ (by omega)
    · subst h
      exact hdig _ (by omega)
    · exact ih hrest c h

theorem uuidValString_chars (u : List Nat) (hb : ∀ b ∈ u, b < 256) :
    ∀ c ∈ uuidValString true u,
      c = 45 ∨ (48 ≤ c ∧ c ≤ 57) ∨ (97 ≤ c ∧ c ≤ 102) := by
  have hsub1 : ∀ b ∈ u.take 4, b < 256 := fun b h => hb b (List.take_subset _ _ h)
  have hsub2 : ∀ b ∈ (u.drop 4).take 2, b < 256 :=
    fun b h => hb b (List.drop_subset _ _ (List.take_subset _ _ h))
  have hsub3 : ∀ b ∈ (u.drop 6).take 2, b < 256 :=
    fun b h => hb b (List.drop_subset _ _ (List.take_subset _ _ h))
  have hsub4 : ∀ b ∈ (u.drop 8).take 2, b < 256 :=
    fun b h => hb b (List.drop_subset _ _ (List.take_subset _ _ h))
  have hsub5 : ∀ b ∈ u.drop 10, b < 256 := fun b h => hb b (List.drop_subset _ _ h)
  intro c hcmem
  rw [uuidValString_group_form] at hcmem
  simp only [List.mem_append, List.mem_cons] at hcmem
  rcases hcmem with h | h | h | h | h | h | h | h | h
  · exact .inr (hexEncode_chars _ hsub1 c h)
  · exact .inl h
  · exact .inr (hexEncode_chars _ hsub2 c h)
  · exact .inl h
  · exact .inr (hexEncode_chars _ hsub3 c h)
  · exact .inl h
  · exact .inr (hexEncode_chars _ hsub4 c h)
  · exact .inl h
  · exact .inr (hexEncode_chars _ hsub5 c h)

/-! The claims. -/

/-- C7: for every 16-byte UUID value, all three accepted wire encodings (the
    16 raw bytes, the 32-hex-digit string, the 36-character hyphenated
    string, in either letter case) decode to the same 16 bytes — hence their
    display string is the one canonical lower-case hyphenated 8-4-4-4-12
    representation, whose characters are hyphens and lower-case hex digits —
    and any input of a different length is rejected by `uuidParse`. -/
theorem claim7_uuid_encodings_canonical (u inp : List Nat)
    (h16 : u.length = 16) (hb : ∀ b ∈ u, b < 256)
    (hinp : ¬(inp.length = 16) ∧ ¬(inp.length = 32) ∧ ¬(inp.length = 36)) :
    uuidParse u = some u ∧
    uuidParse (hexEncode u) = some u ∧
    uuidParse ((hexEncode u).map asciiToUpper) = some u ∧
    uuidParse (uuidValString true u) = some u ∧
    uuidParse ((uuidValString true u).map asciiToUpper) = some u ∧
    (uuidValString true u).length = 36 ∧
    (∀ c ∈ uuidValString true u,
      c = 45 ∨ (48 ≤ c ∧ c ≤ 57) ∨ (97 ≤ c ∧ c ≤ 102)) ∧
    uuidParse inp = none := by
  have hsub1 : ∀ b ∈ u.take 4, b < 256 := fun b h => hb b (List.take_subset _ _ h)
  have hsub2 : ∀ b ∈ (u.drop 4).take 2, b < 256 :=
    fun b h => hb b (List.drop_subset _ _ (List.take_subset _ _ h))
  have hsub3 : ∀ b ∈ (u.drop 6).take 2, b < 256 :=
    fun b h => hb b (List.drop_subset _ _ (List.take_subset _ _ h))
  have hsub4 : ∀ b ∈ (u.drop 8).take 2, b < 256 :=
    fun b h => hb b (List.drop_subset _ _ (List.take_subset _ _ h))
  have hsub5 : ∀ b ∈ u.drop 10, b < 256 := fun b h => hb b (List.drop_subset _ _ h)
  have hl1 : (hexEncode (u.take 4)).length = 8 := by
    rw [hexEncode_length]
    simp [List.length_take, h16]
  have hl2 : (hexEncode ((u.drop 4).take 2)).length = 4 := by
    rw [hexEncode_length]
    simp [List.length_take, List.length_drop, h16]
  have hl3 : (hexEncode ((u.drop 6).take 2)).length = 4 := by
    rw [hexEncode_length]
    simp [List.length_take, List.length_drop, h16]
  have hl4 : (hexEncode ((u.drop 8).take 2)).length = 4 := by
    rw [hexEncode_length]
    simp [List.length_take, List.length_drop, h16]
  have hl5 : (hexEncode (u.drop 10)).length = 12 := by
    rw [hexEncode_length]
    simp [List.length_drop, h16]
  have h45 : asciiToUpper 45 = 45 := by decide
  refine ⟨?_, ?_, ?_, ?_, ?_, ?_, ?_, ?_⟩
  · simp [uuidParse, h16]
  · have hlen : (hexEncode u).length = 32 := by rw [hexEncode_length, h16]
    simp [uuidParse, hlen, hexDecode_hexEncode u hb]
  · have hlen : ((hexEncode u).map asciiToUpper).length = 32 := by
      rw [List.length_map, hexEncode_length, h16]
    simp [uuidParse, hlen, hexDecode_upper_hexEncode u hb]
  · rw [uuidValString_group_form]
    exact uuidParse_hyphenated _ _ _ _ _ u hl1 hl2 hl3 hl4 hl5
      (hexDecode_hexEncode _ hsub1) (hexDecode_hexEncode _ hsub2)
      (hexDecode_hexEncode _ hsub3) (hexDecode_hexEncode _ hsub4)
      (hexDecode_hexEncode _ hsub5)
  · rw [uuidValString_group_form]
    simp only [List.map_append, List.map_cons, h45]
    exact uuidParse_hyphenated _ _ _ _ _ u
      (by rw [List.length_map]; exact hl1) (by rw [List.length_map]; exact hl2)
      (by rw [List.length_map]; exact hl3) (by rw [List.length_map]; exact hl4)
      (by rw [List.length_map]; exact hl5)
      (hexDecode_upper_hexEncode _ hsub1) (hexDecode_upper_hexEncode _ hsub2)
      (hexDecode_upper_hexEncode _ hsub3) (hexDecode_upper_hexEncode _ hsub4)
      (hexDecode_upper_hexEncode _ hsub5)
  · rw [uuidValString_group_form]
    simp [hl1, hl2, hl3, hl4, hl5]
  · exact uuidValString_chars u hb
  · exact uuidParse_other_length inp hinp.1 hinp.2.1 hinp.2.2

/-- Witness for C7 at the concrete UUID `wUUID` and the rejected length-3
    input. -/
theorem claim7_witness :
    (wUUID.length = 16 ∧ (∀ b ∈ wUUID, b < 256) ∧
      (¬(([1, 2, 3] : List Nat).length = 16) ∧ ¬(([1, 2, 3] : List Nat).length = 32) ∧
       ¬(([1, 2, 3] : List Nat).length = 36))) ∧
    (uuidParse wUUID = some wUUID ∧
     uuidParse (hexEncode wUUID) = some wUUID ∧
     uuidParse ((hexEncode wUUID).map asciiToUpper) = some wUUID ∧
     uuidParse (uuidValString true wUUID) = some wUUID ∧
     uuidParse ((uuidValString true wUUID).map asciiToUpper) = some wUUID ∧
     (uuidValString true wUUID).length = 36 ∧
     (∀ c ∈ uuidValString true wUUID,
       c = 45 ∨ (48 ≤ c ∧ c ≤ 57) ∨ (97 ≤ c ∧ c ≤ 102)) ∧
     uuidParse [1, 2, 3] = none) :=
  ⟨⟨by decide, by decide, by decide⟩,
   claim7_uuid_encodings_canonical wUUID [1, 2, 3] (by decide) (by decide)
     ⟨by decide, by decide, by decide⟩⟩

/-- C1 counterexample: switching to the tunnelled connection `c` of `wCfg`
    with an oracle whose ping fails returns an error, yet the tunnel
    established earlier in the same call stays registered in the tunnel
    cache — the call does not leave the whole registry state (tunnel cache
    included) as it was. -/
theorem claim1_counterexample :
    (DBMan.switchConnection (DBMan.new wCfg) "c" wOracleBad).1
      = .err (.pingFailed "timeout") ∧
    ¬(((DBMan.switchConnection (DBMan.new wCfg) "c" wOracleBad).2.1).activeTunnels
      = (DBMan.new wCfg).activeTunnels) := by
  constructor
  · rfl
  · decide

/-- C1 (amended): if `SwitchConnection` fails at any step, the connection
    cache (`activeQueriers`) and the current pointer (`current` and
    `currentName`) are exactly as before the call — registration of the
    connection and reassignment of current happen only after a successful
    ping — but a tunnel successfully established during the failed call
    remains registered in the tunnel cache. -/
theorem claim1_failure_preserves_cache_and_current (d : DBMan) (name : String)
    (o : Oracle) (e : DBError)
    (h : (DBMan.switchConnection d name o).1 = .err e) :
    ((DBMan.switchConnection d name o).2.1).activeQueriers = d.activeQueriers ∧
    ((DBMan.switchConnection d name o).2.1).current = d.current ∧
    ((DBMan.switchConnection d name o).2.1).currentName = d.currentName := by
  exact switchConnection_err_frame d name o e h

/-- Witness for C1 (amended) at the failing ping call. -/
theorem claim1_witness :
    (DBMan.switchConnection (DBMan.new wCfg) "c" wOracleBad).1
      = .err (.pingFailed "timeout") ∧
    (((DBMan.switchConnection (DBMan.new wCfg) "c" wOracleBad).2.1).activeQueriers
      = (DBMan.new wCfg).activeQueriers ∧
     ((DBMan.switchConnection (DBMan.new wCfg) "c" wOracleBad).2.1).current
      = (DBMan.new wCfg).current ∧
     ((DBMan.switchConnection (DBMan.new wCfg) "c" wOracleBad).2.1).currentName
      = (DBMan.new wCfg).currentName) :=
  ⟨rfl, claim1_failure_preserves_cache_and_current (DBMan.new wCfg) "c" wOracleBad
    (.pingFailed "timeout") rfl⟩

/-- C9: a `SwitchConnection` call never changes the stored configuration:
    the host/port rewrite to the tunnel endpoint and the password fill-in
    happen on the transient value copy obtained by indexing the map, so the
    specs in `cfg` are unchanged whatever the outcome. -/
theorem claim9_config_specs_never_mutated (d : DBMan) (name : String) (o : Oracle) :
    ((DBMan.switchConnection d name o).2.1).cfg = d.cfg :=
  switchConnection_cfg_frame d name o

/-- C3: over any sequence of `SwitchConnection` calls starting from a fresh
    registry, each tunnel name sees at most one successful tunnel
    establishment (one transport session and one local listener); every
    later connection referencing the name reuses the cached tunnel. -/
theorem claim3_tunnel_dialed_at_most_once (cfg : Config)
    (calls : List (String × Oracle)) (tn : String) :
    ((runSwitches (DBMan.new cfg) calls).2).count (.tunnelDial tn true) ≤ 1 := by
  have h := runSwitches_tunnelDial_bound tn calls (DBMan.new cfg)
  have hnew : (mapLookup (DBMan.new cfg).activeTunnels tn).isSome = false := rfl
  rw [hnew] at h
  simpa using h

/-- C10: `SwitchConnection` reads `answers[0]` without checking the prompter
    returned any answer: with an empty configured password, PGPASSWORD unset
    and a prompter that succeeds with an empty answer list, the call panics
    (index out of range) instead of returning an error; the tunnel
    passphrase retry loop of `NewTunnel` reads `answers[0]` under the same
    assumption. -/
theorem claim10_empty_prompt_answers_panic (d : DBMan) (name : String)
    (conn : Connection) (o : Oracle)
    (attempts : Nat → Except String (List String))
    (parsePass : String → Except String Signer)
    (hconn : mapLookup d.cfg.connections name = some conn)
    (hq : mapLookup d.activeQueriers name = none)
    (htun : conn.tunnel = "") (hpw : conn.password = "")
    (henv : o.pgpassword = "") (hprompt : o.promptAnswers = .ok [])
    (hatt : attempts 0 = .ok []) :
    (DBMan.switchConnection d name o).1 = .panicked ∧
    passphraseLoop attempts parsePass 0 promptNumRetries = .panicked := by
  constructor
  · simp only [DBMan.switchConnection, hconn, hq]
    have hT : resolveTunnel d conn o = (.ok conn, d, []) := by
      simp [resolveTunnel, htun]
    simp only [hT]
    have hP : resolvePassword conn o = (.panicked, [.promptDBPassword]) := by
      simp [resolvePassword, hpw, henv, hprompt]
    simp only [hP]
  · simp [passphraseLoop, promptNumRetries, hatt]

/-- Witness for C10: the concrete empty-prompter oracle on the direct
    connection. -/
theorem claim10_witness :
    (mapLookup (DBMan.new wCfg).cfg.connections "direct" = some wConnDirect ∧
     mapLookup (DBMan.new wCfg).activeQueriers "direct" = none ∧
     wConnDirect.tunnel = "" ∧ wConnDirect.password = "" ∧
     wOracleEmptyPrompt.pgpassword = "" ∧
     wOracleEmptyPrompt.promptAnswers = .ok [] ∧
     (fun _ : Nat => (Except.ok ([] : List String) : Except String (List String))) 0
      = .ok []) ∧
    ((DBMan.switchConnection (DBMan.new wCfg) "direct" wOracleEmptyPrompt).1
      = .panicked ∧
     passphraseLoop (fun _ => .ok []) (fun _ => .error "bad passphrase") 0
       promptNumRetries = .panicked) :=
  ⟨⟨rfl, rfl, rfl, rfl, rfl, rfl, rfl⟩,
   claim10_empty_prompt_answers_panic (DBMan.new wCfg) "direct" wConnDirect
     wOracleEmptyPrompt (fun _ => .ok []) (fun _ => .error "bad passphrase")
     rfl rfl rfl rfl rfl rfl rfl⟩

/-- C2: after one successful `SwitchConnection(name)` on a not-yet-cached
    name, a second `SwitchConnection(name)` is a pure reassignment: it
    returns the same state, performs no external event at all, and across
    the two calls exactly one database open and one ping happened for that
    name. -/
theorem claim2_second_switch_is_noop (d : DBMan) (name : String) (o1 o2 : Oracle)
    (h0 : mapLookup d.activeQueriers name = none)
    (hok : (DBMan.switchConnection d name o1).1 = .ok ()) :
    DBMan.switchConnection ((DBMan.switchConnection d name o1).2.1) name o2
      = (.ok (), (DBMan.switchConnection d name o1).2.1, []) ∧
    ((DBMan.switchConnection d name o1).2.2
      ++ (DBMan.switchConnection ((DBMan.switchConnection d name o1).2.1) name o2).2.2).count
        (Event.dbOpen name) = 1 ∧
    ((DBMan.switchConnection d name o1).2.2
      ++ (DBMan.switchConnection ((DBMan.switchConnection d name o1).2.1) name o2).2.2).count
        (Event.ping name) = 1 := by
  obtain ⟨db, hQ, hcur, hname, hcfg, hdb, hping, hsome⟩ :=
    switchConnection_ok_uncached d name o1 h0 hok
  obtain ⟨c, hc⟩ := Option.isSome_iff_exists.mp hsome
  have hconn2 : mapLookup ((DBMan.switchConnection d name o1).2.1).cfg.connections name
      = some c := by
    rw [hcfg]
    exact hc
  have hq2 : mapLookup ((DBMan.switchConnection d name o1).2.1).activeQueriers name
      = some db := by
    rw [hQ]
    exact mapLookup_insert_self _ _ _
  have h2 := switchConnection_cached ((DBMan.switchConnection d name o1).2.1) name o2
    db c hconn2 hq2 hcur hname
  refine ⟨h2, ?_, ?_⟩
  · rw [h2]
    simp [List.count_append, hdb]
  · rw [h2]
    simp [List.count_append, hping]

/-- Witness for C2: two consecutive switches to the tunnelled connection of
    `wCfg`, the first with a fully successful oracle. -/
theorem claim2_witness :
    (mapLookup (DBMan.new wCfg).activeQueriers "c" = none ∧
     (DBMan.switchConnection (DBMan.new wCfg) "c" wOracleOk).1 = .ok ()) ∧
    (DBMan.switchConnection ((DBMan.switchConnection (DBMan.new wCfg) "c" wOracleOk).2.1)
        "c" wOracleBad
      = (.ok (), (DBMan.switchConnection (DBMan.new wCfg) "c" wOracleOk).2.1, []) ∧
     ((DBMan.switchConnection (DBMan.new wCfg) "c" wOracleOk).2.2
       ++ (DBMan.switchConnection ((DBMan.switchConnection (DBMan.new wCfg) "c" wOracleOk).2.1)
            "c" wOracleBad).2.2).count (Event.dbOpen "c") = 1 ∧
     ((DBMan.switchConnection (DBMan.new wCfg) "c" wOracleOk).2.2
       ++ (DBMan.switchConnection ((DBMan.switchConnection (DBMan.new wCfg) "c" wOracleOk).2.1)
            "c" wOracleBad).2.2).count (Event.ping "c") = 1) :=
  ⟨⟨rfl, rfl⟩,
   claim2_second_switch_is_noop (DBMan.new wCfg) "c" wOracleOk wOracleBad rfl rfl⟩

/-- C4 counterexample: on a fresh registry (no current connection), `Stats`
    does not fail with a no-active-connection error — its Go signature has no
    error result at all — it returns the zero-valued `sql.DBStats`. -/
theorem claim4_counterexample :
    DBMan.stats (DBMan.new wCfg) = ({} : DBStats) := by
  decide

/-- C4 (amended): when no connection is current, `ListTables`, `ListSchemas`,
    `DescribeTable` and `Query` fail with the no-active-connection error and
    issue no query, while `Stats` returns the zero-valued `sql.DBStats`
    rather than an error. -/
theorem claim4_operations_require_current (d : DBMan)
    (schema tname script : String) (hcur : d.current = none) :
    DBMan.listTables d schema = ((none, some .noActiveConnection), []) ∧
    DBMan.listSchemas d = ((none, some .noActiveConnection), []) ∧
    DBMan.describeTable d tname = ((none, some .noActiveConnection), []) ∧
    DBMan.query d script = ((none, some .noActiveConnection), []) ∧
    DBMan.stats d = ({} : DBStats) := by
  refine ⟨?_, ?_, ?_, ?_, ?_⟩ <;>
    simp [DBMan.listTables, DBMan.listSchemas, DBMan.describeTable,
          DBMan.query, DBMan.stats, hcur]

/-- Witness for C4 (amended) on the fresh registry. -/
theorem claim4_witness :
    (DBMan.new wCfg).current = none ∧
    (DBMan.listTables (DBMan.new wCfg) "public"
        = ((none, some .noActiveConnection), []) ∧
     DBMan.listSchemas (DBMan.new wCfg) = ((none, some .noActiveConnection), []) ∧
     DBMan.describeTable (DBMan.new wCfg) "orders"
        = ((none, some .noActiveConnection), []) ∧
     DBMan.query (DBMan.new wCfg) "SELECT 1" = ((none, some .noActiveConnection), []) ∧
     DBMan.stats (DBMan.new wCfg) = ({} : DBStats)) :=
  ⟨rfl, claim4_operations_require_current (DBMan.new wCfg) "public" "orders"
    "SELECT 1" rfl⟩

/-- C5 counterexample: `DescribeTable("")` does not fail with a validation
    error — Go `strings.Split("", ".")` yields the one-element list `[""]`,
    so the empty name is treated as the table `""` in schema `public`: the
    describe query is issued and the call succeeds with an empty schema. -/
theorem claim5_counterexample :
    (dbMetaDescribeTable wDBempty "").1.2 = none ∧
    ¬((dbMetaDescribeTable wDBempty "").2 = []) ∧
    (dbMetaDescribeTable wDBempty "").2 = [.query (.describeQ "public" "")] := by
  refine ⟨rfl, ?_, rfl⟩
  decide

/-- C5 (amended): a qualified table name whose number of dot-separated
    segments is neither one nor two makes `DescribeTable` fail with the
    invalid-table-name validation error before issuing any query (so
    `a.b.c` fails); the empty name, however, splits into one empty segment
    and is not rejected, and a zero-segment split cannot occur. -/
theorem claim5_describe_validates_segments (q : DB) (tname : String)
    (h1 : ¬((stringsSplit tname '.').length = 1))
    (h2 : ¬((stringsSplit tname '.').length = 2)) :
    dbMetaDescribeTable q tname = ((none, some (.invalidTableName tname)), []) := by
  unfold dbMetaDescribeTable
  split
  next schema table heq =>
    exact absurd (by rw [heq]; rfl) h2
  next table heq =>
    exact absurd (by rw [heq]; rfl) h1
  next =>
    rfl

/-- Witness for C5 (amended) at the three-segment name. -/
theorem claim5_witness :
    (¬((stringsSplit "a.b.c" '.').length = 1) ∧
     ¬((stringsSplit "a.b.c" '.').length = 2)) ∧
    dbMetaDescribeTable wDBempty "a.b.c"
      = ((none, some (.invalidTableName "a.b.c")), []) :=
  ⟨⟨by decide, by decide⟩,
   claim5_describe_validates_segments wDBempty "a.b.c" (by decide) (by decide)⟩

/-- C6: a statement whose execution succeeds with zero reported columns
    makes `Query` return `(nil, nil)` — a success signal — before any
    scanning, while a statement that reports columns but yields zero rows
    returns a non-nil result carrying those column names and an empty row
    list, so the two outcomes are distinguishable. -/
theorem claim6_nil_result_vs_zero_rows (d1 d2 : DBMan) (q1 q2 : DB)
    (rows1 rows2 : Rows) (script1 script2 : String)
    (hc1 : d1.current = some q1) (hr1 : q1.queryRes = .rows rows1)
    (hz1 : rows1.columns = [])
    (hc2 : d2.current = some q2) (hr2 : q2.queryRes = .rows rows2)
    (hz2 : ¬(rows2.columns = [])) (hd2 : rows2.data = []) (he2 : rows2.rowsErr = none) :
    DBMan.query d1 script1 = ((none, none), [.query (.userScript script1)]) ∧
    DBMan.query d2 script2
      = ((some { columns := rows2.columns.map ColumnType.name, rows := [] }, none),
         [.query (.userScript script2)]) := by
  constructor
  · simp [DBMan.query, hc1, hr1, hz1]
  · have hlen : ¬(rows2.columns.length = 0) := by
      intro hzero
      exact hz2 (List.length_eq_zero.mp hzero)
    simp [DBMan.query, hc2, hr2, hd2, he2, hlen, scanRows]

/-- Witness for C6: the no-column handle versus the two-column zero-row
    handle. -/
theorem claim6_witness :
    (({ cfg := wCfg, current := some wDBempty } : DBMan).current = some wDBempty ∧
     wDBempty.queryRes = .rows {} ∧
     ({ cfg := wCfg, current := some wDBtwoCols } : DBMan).current = some wDBtwoCols ∧
     wDBtwoCols.queryRes
      = .rows { columns := [{ name := "id", databaseTypeName := "uuid" },
                            { name := "amount", databaseTypeName := "int4" }] }) ∧
    (DBMan.query { cfg := wCfg, current := some wDBempty } "CREATE TABLE t (x int)"
      = ((none, none), [.query (.userScript "CREATE TABLE t (x int)")]) ∧
     DBMan.query { cfg := wCfg, current := some wDBtwoCols } "SELECT id, amount FROM t"
      = ((some { columns := ["id", "amount"], rows := [] }, none),
         [.query (.userScript "SELECT id, amount FROM t")])) :=
  ⟨⟨rfl, rfl, rfl, rfl⟩,
   claim6_nil_result_vs_zero_rows { cfg := wCfg, current := some wDBempty }
     { cfg := wCfg, current := some wDBtwoCols } wDBempty wDBtwoCols
     {} { columns := [{ name := "id", databaseTypeName := "uuid" },
                      { name := "amount", databaseTypeName := "int4" }] }
     "CREATE TABLE t (x int)" "SELECT id, amount FROM t"
     rfl rfl rfl rfl rfl (by decide) rfl rfl⟩

/-- C8: `Close` returns nil whatever the individual close results: every
    cached handle and every active tunnel sees its close performed (no early
    abort, no propagation of close errors), and a tunnel close closes each
    tracked forwarded connection with the listener closed last. -/
theorem claim8_close_is_unconditional (d : DBMan) (t : Tunnel)
    (p : String × DB) (q : String × Tunnel) (c : ForwardedConn)
    (hp : p ∈ d.activeQueriers) (hq : q ∈ d.activeTunnels)
    (hc : c ∈ t.connections) :
    (DBMan.close d).1 = none ∧
    Event.closeQuerier p.1 p.2.closeErr ∈ (DBMan.close d).2 ∧
    Event.closeTunnel q.1 q.2.listenerCloseErr ∈ (DBMan.close d).2 ∧
    Event.closeForwardedConn c.id c.closeErr ∈ (Tunnel.close t).2 ∧
    (Tunnel.close t).2.getLast? = some (Event.closeListener t.listenerCloseErr) := by
  refine ⟨rfl, ?_, ?_, ?_, ?_⟩
  · exact List.mem_append_left _ (List.mem_map_of_mem _ hp)
  · exact List.mem_append_right _ (List.mem_map_of_mem _ hq)
  · exact List.mem_append_left _ (List.mem_map_of_mem _ hc)
  · exact List.getLast?_concat _

/-- Witness for C8 on a state whose closes all fail. -/
theorem claim8_witness :
    (("c", ({ wDBok with closeErr := some "reset" } : DB))
        ∈ wDirtyState.activeQueriers ∧
     ("t", ({ wTunnel with
        connections := [{ id := 7, closeErr := some "broken pipe" }, { id := 8 }],
        listenerCloseErr := some "already closed" } : Tunnel))
        ∈ wDirtyState.activeTunnels ∧
     ({ id := 7, closeErr := some "broken pipe" } : ForwardedConn)
        ∈ ({ wTunnel with
            connections := [{ id := 7, closeErr := some "broken pipe" }, { id := 8 }],
            listenerCloseErr := some "already closed" } : Tunnel).connections) ∧
    ((DBMan.close wDirtyState).1 = none ∧
     Event.closeQuerier "c" (some "reset") ∈ (DBMan.close wDirtyState).2 ∧
     Event.closeTunnel "t" (some "already closed") ∈ (DBMan.close wDirtyState).2 ∧
     Event.closeForwardedConn 7 (some "broken pipe")
        ∈ (Tunnel.close { wTunnel with
            connections := [{ id := 7, closeErr := some "broken pipe" }, { id := 8 }],
            listenerCloseErr := some "already closed" }).2 ∧
     (Tunnel.close { wTunnel with
        connections := [{ id := 7, closeErr := some "broken pipe" }, { id := 8 }],
        listenerCloseErr := some "already closed" }).2.getLast?
      = some (Event.closeListener (some "already closed"))) :=
  ⟨⟨by decide, by decide, by decide⟩,
   claim8_close_is_unconditional wDirtyState
     { wTunnel with
        connections := [{ id := 7, closeErr := some "broken pipe" }, { id := 8 }],
        listenerCloseErr := some "already closed" }
     ("c", { wDBok with closeErr := some "reset" })
     ("t", { wTunnel with
        connections := [{ id := 7, closeErr := some "broken pipe" }, { id := 8 }],
        listenerCloseErr := some "already closed" })
     { id := 7, closeErr := some "broken pipe" }
     (by decide) (by decide) (by decide)⟩

end Dbman
